import Mathlib

/-!
Shallow embedding of the state-machine component of the mysql-test-app charm
(`src/state_machine.py`) and of the random-value generator of `src/charm.py`.

The Python module drives an external finite-state-machine library through
three class-level tables (`states`, `state_transitions`, `blocking_states`)
and through dynamically named triggers (`to_<state>`) and guard checks
(`may_to_<state>`).  The library itself is not part of this repository; its
trigger semantics is modelled from the spec as the declared transition table.
-/

namespace MySQLTestApp

/-- The `StateMachine.states` table (state_machine.py, lines 16-20). -/
def states : List String := ["waiting_for_database", "ready", "writing"]

/-- The `StateMachine.state_transitions` table (state_machine.py, lines 22-26). -/
def state_transitions : List (String × String) :=
  [("waiting_for_database", "ready"), ("ready", "writing"), ("writing", "ready")]

/-- The `StateMachine.blocking_states` table (state_machine.py, lines 28-30). -/
def blocking_states : List String := ["waiting_for_database"]

/-- A state machine carries a single current state string (`self.machine.state`). -/
structure StateMachine where
  state : String
deriving DecidableEq, Repr

/-- `StateMachine.__init__` (state_machine.py, lines 32-41): the machine starts
in `waiting_for_database` and installs one trigger per declared edge. -/
def StateMachine.init : StateMachine := ⟨"waiting_for_database"⟩

/-- Modelled from the spec: the external `transitions` library that implements
trigger dispatch is not part of this repository.  Per the spec, the guard
fetched as `may_to_<target>` returns true iff the directed edge
`(current_state, target)` exists in the fixed transition table installed by
`StateMachine.__init__`. -/
def may_to (m : StateMachine) (target : String) : Bool :=
  decide ((m.state, target) ∈ state_transitions)

/-- `CharmState.can_transition_to` (state_machine.py, lines 76-82): returns
false for a target outside the state list, otherwise the result of the
dynamically fetched guard. -/
def can_transition_to (m : StateMachine) (target : String) : Bool :=
  if target ∉ states then false
  else may_to m target

/-- Outcome of one `CharmState.transition_to` call: whether the call raised
(`Exception`, the spec's InvalidTransition) and the machine afterwards. -/
structure TransitionOutcome where
  raised : Bool
  machine : StateMachine
deriving DecidableEq, Repr

/-- `CharmState.transition_to` (state_machine.py, lines 84-89): raises when the
guard fails, leaving the machine untouched; otherwise fires the trigger of the
declared edge, moving the machine to `target`. -/
def transition_to (m : StateMachine) (target : String) : TransitionOutcome :=
  if can_transition_to m target = false then ⟨true, m⟩
  else ⟨false, ⟨target⟩⟩

/-- `CharmState.is_blocked` (state_machine.py, lines 71-74), the machine-level
test `self.machine.state in ["waiting_for_database"]`. -/
def is_blocked (m : StateMachine) : Bool :=
  decide (m.state ∈ ["waiting_for_database"])

/-- A persisted blob, `codecs.encode(pickle.dumps(machine), "base64")`.
Decoding a blob (base64 plus unpickle) either fails outright or yields a
machine object carrying some state string; pickle rebuilds attribute values
verbatim and imposes no restriction on that string, so a machine with any
state string is encodable. -/
inductive Blob where
  | encodedMachine (state : String)
  | undecodable
deriving DecidableEq, Repr

/-- Serialization as performed by `CharmState.__del__` (state_machine.py,
lines 67-69): the blob records the machine, hence its state string. -/
def serialize (m : StateMachine) : Blob := Blob.encodedMachine m.state

/-- The decode failure raised by `codecs.decode` or `pickle.loads` on a bad
blob (the spec's CorruptState). -/
inductive RestoreError where
  | corrupt
deriving DecidableEq, Repr

/-- Restoration as performed by `CharmState.__init__` (state_machine.py, lines
51-54): `pickle.loads(codecs.decode(blob.encode(), "base64"))`.  No validation
of the decoded state value is performed. -/
def restore : Blob → Except RestoreError StateMachine
  | Blob.encodedMachine s => Except.ok ⟨s⟩
  | Blob.undecodable => Except.error RestoreError.corrupt

/-- The unit peer databag `self.charm.unit_peer_data`: `unavailable` models a
falsy value (relation missing or empty mapping), `available stored` a truthy
mapping whose optional key holds `stored`. -/
inductive PeerData where
  | unavailable
  | available (stored : Option Blob)
deriving DecidableEq, Repr

/-- The component: `machine` is `none` when `CharmState.__init__` returned
early without ever assigning the attribute. -/
structure CharmState where
  machine : Option StateMachine
deriving DecidableEq, Repr

/-- `CharmState.__init__` (state_machine.py, lines 44-60): early return when
peer data is falsy (the `machine` attribute stays unset), restore when a blob
is stored (a decode failure propagates to the caller), and a fresh
`StateMachine()` otherwise. -/
def CharmState.init : PeerData → Except RestoreError CharmState
  | PeerData.unavailable => Except.ok ⟨none⟩
  | PeerData.available (some b) =>
      match restore b with
      | Except.ok m => Except.ok ⟨some m⟩
      | Except.error e => Except.error e
  | PeerData.available none => Except.ok ⟨some StateMachine.init⟩

/-- AttributeError: reading `self.machine` when the attribute was never
assigned. -/
inductive QueryError where
  | attributeError
deriving DecidableEq, Repr

/-- `CharmState.is_blocked` observed at the component level: reading
`self.machine` raises AttributeError when the attribute was never assigned. -/
def CharmState.is_blocked : CharmState → Except QueryError Bool
  | ⟨none⟩ => Except.error QueryError.attributeError
  | ⟨some m⟩ => Except.ok (MySQLTestApp.is_blocked m)

/-- `CharmState._get_state_action` (state_machine.py, lines 91-94): reports
`self.machine.state` as the status-query result. -/
def CharmState.get_state_action : CharmState → Except QueryError String
  | ⟨none⟩ => Except.error QueryError.attributeError
  | ⟨some m⟩ => Except.ok m.state

/-- `CharmState.__del__` (state_machine.py, lines 62-69): early return (store
unchanged) when peer data is falsy, otherwise writes the serialized machine
into the databag; reading an unset `machine` attribute raises. -/
def CharmState.del : CharmState → PeerData → Except QueryError PeerData
  | _, PeerData.unavailable => Except.ok PeerData.unavailable
  | ⟨none⟩, PeerData.available _ => Except.error QueryError.attributeError
  | ⟨some m⟩, PeerData.available _ =>
      Except.ok (PeerData.available (some (serialize m)))

/-- Runs a sequence of `transition_to` calls; a failed call leaves the machine
unchanged, because the raise happens before the trigger fires. -/
def run (m : StateMachine) : List String → StateMachine
  | [] => m
  | t :: ts => run (transition_to m t).machine ts

/-- Machines observable through a sequence of component operations: fresh
construction, successful or failed transition calls, and restoration of a
blob that serialization produced earlier in the sequence. -/
inductive Reachable : StateMachine → Prop where
  | init : Reachable StateMachine.init
  | step (m : StateMachine) (t : String) (hm : Reachable m) :
      Reachable (transition_to m t).machine
  | roundtrip (m m2 : StateMachine) (hm : Reachable m)
      (h2 : restore (serialize m) = Except.ok m2) : Reachable m2

/-- `string.ascii_letters`. -/
def ascii_letters : String :=
  "abcdefghijklmnopqrstuvwxyzABCDEFGHIJKLMNOPQRSTUVWXYZ"

/-- `string.digits`. -/
def digits : String := "0123456789"

/-- The choice alphabet of `_generate_random_values` (charm.py, line 188):
`string.ascii_letters + string.digits`. -/
def choices : String := ascii_letters ++ digits

/-- `secrets.choice(seq)`: returns an element of `seq` selected by the entropy
source; the draw is modelled by an arbitrary natural `r` reduced modulo the
length. -/
def secrets_choice (l : List Char) (hl : 0 < l.length) (r : Nat) : Char :=
  l.get ⟨r % l.length, Nat.mod_lt r hl⟩

/-- `MySQLTestApplication._generate_random_values` (charm.py, lines 186-189):
joins `length` characters chosen from the alphabet; `rng` models the sequence
of draws of the entropy source. -/
def generate_random_values (length : Nat) (rng : Nat → Nat) : String :=
  ⟨(List.range length).map fun i => secrets_choice choices.toList (by decide) (rng i)⟩

theorem edge_target_mem : ∀ p ∈ state_transitions, p.2 ∈ states := by decide

theorem no_edge_to_waiting : ∀ p ∈ state_transitions, p.2 ≠ "waiting_for_database" := by
  decide

theorem can_transition_to_eq_mem (m : StateMachine) (T : String) :
    can_transition_to m T = true ↔ (m.state, T) ∈ state_transitions := by
  by_cases ht : T ∈ states
  · simp [can_transition_to, may_to, ht]
  · simp [can_transition_to, ht]
    intro h
    exact ht (edge_target_mem (m.state, T) h)

theorem transition_to_of_invalid (m : StateMachine) (T : String)
    (h : can_transition_to m T = false) : transition_to m T = ⟨true, m⟩ := by
  simp [transition_to, h]

theorem transition_to_of_valid (m : StateMachine) (T : String)
    (h : can_transition_to m T = true) : transition_to m T = ⟨false, ⟨T⟩⟩ := by
  simp [transition_to, h]

theorem transition_machine_state_mem (m : StateMachine) (t : String)
    (h : m.state ∈ states) : (transition_to m t).machine.state ∈ states := by
  cases hc : can_transition_to m t with
  | false => rw [transition_to_of_invalid m t hc]; exact h
  | true =>
      rw [transition_to_of_valid m t hc]
      exact edge_target_mem (m.state, t) ((can_transition_to_eq_mem m t).mp hc)

theorem transition_machine_not_waiting (m : StateMachine) (t : String)
    (h : m.state ≠ "waiting_for_database") :
    (transition_to m t).machine.state ≠ "waiting_for_database" := by
  cases hc : can_transition_to m t with
  | false => rw [transition_to_of_invalid m t hc]; exact h
  | true =>
      rw [transition_to_of_valid m t hc]
      exact no_edge_to_waiting (m.state, t) ((can_transition_to_eq_mem m t).mp hc)

theorem run_not_waiting (ts : List String) (m : StateMachine)
    (h : m.state ≠ "waiting_for_database") :
    (run m ts).state ≠ "waiting_for_database" := by
  induction ts generalizing m with
  | nil => exact h
  | cons t ts ih =>
      simp only [run]
      exact ih (transition_to m t).machine (transition_machine_not_waiting m t h)

theorem reachable_mem_states (m : StateMachine) (h : Reachable m) :
    m.state ∈ states := by
  induction h with
  | init => decide
  | step m1 t hm ih => exact transition_machine_state_mem m1 t ih
  | roundtrip m1 m2 hm h2 ih =>
      have hre : restore (serialize m1) = Except.ok ⟨m1.state⟩ := rfl
      rw [hre] at h2
      injection h2 with h3
      rw [← h3]
      exact ih

/-- C1: for every state S among the three machine states and every target
string T, `can_transition_to` from S answers true exactly when (S, T) is a
declared edge, and answers false (it does not raise) for any target outside
the three-state set. -/
theorem can_transition_to_iff_edge (S T : String) (hS : S ∈ states) :
    (can_transition_to ⟨S⟩ T = true ↔ (S, T) ∈ state_transitions) ∧
    (T ∉ states → can_transition_to ⟨S⟩ T = false) := by
  refine ⟨can_transition_to_eq_mem ⟨S⟩ T, fun ht => ?_⟩
  cases hc : can_transition_to ⟨S⟩ T with
  | false => rfl
  | true =>
      exact absurd (edge_target_mem (S, T) ((can_transition_to_eq_mem ⟨S⟩ T).mp hc)) ht

theorem can_transition_to_iff_edge_witness :
    ("ready" ∈ states) ∧
    ((can_transition_to ⟨"ready"⟩ "writing" = true ↔
        ("ready", "writing") ∈ state_transitions) ∧
      ("writing" ∉ states → can_transition_to ⟨"ready"⟩ "writing" = false)) :=
  ⟨by decide, can_transition_to_iff_edge ("ready") ("writing") (by decide)⟩

/-- C2: whenever `can_transition_to` answers false, `transition_to` raises and
leaves the machine - hence also the state a status query reports - unchanged. -/
theorem transition_to_invalid_keeps_state (m : StateMachine) (T : String)
    (h : can_transition_to m T = false) :
    (transition_to m T).raised = true ∧ (transition_to m T).machine = m ∧
    (transition_to m T).machine.state = m.state := by
  rw [transition_to_of_invalid m T h]
  exact ⟨rfl, rfl, rfl⟩

theorem transition_to_invalid_keeps_state_witness :
    can_transition_to ⟨"waiting_for_database"⟩ "writing" = false ∧
    ((transition_to ⟨"waiting_for_database"⟩ "writing").raised = true ∧
      (transition_to ⟨"waiting_for_database"⟩ "writing").machine =
        ⟨"waiting_for_database"⟩ ∧
      (transition_to ⟨"waiting_for_database"⟩ "writing").machine.state =
        "waiting_for_database") :=
  ⟨by decide,
    transition_to_invalid_keeps_state ⟨"waiting_for_database"⟩ ("writing") (by decide)⟩

/-- C3: once the machine is out of `waiting_for_database`, no sequence of
`transition_to` calls ever brings it back, and there is no direct transition
from `waiting_for_database` to `writing`. -/
theorem left_waiting_never_returns (ts : List String) (m : StateMachine)
    (h : m.state ≠ "waiting_for_database") :
    (run m ts).state ≠ "waiting_for_database" ∧
    can_transition_to ⟨"waiting_for_database"⟩ "writing" = false :=
  ⟨run_not_waiting ts m h, by decide⟩

theorem left_waiting_never_returns_witness :
    ((⟨"ready"⟩ : StateMachine).state ≠ "waiting_for_database") ∧
    ((run ⟨"ready"⟩ ["waiting_for_database", "writing", "ready"]).state ≠
        "waiting_for_database" ∧
      can_transition_to ⟨"waiting_for_database"⟩ "writing" = false) :=
  ⟨by decide,
    left_waiting_never_returns ["waiting_for_database", "writing", "ready"]
      ⟨"ready"⟩ (by decide)⟩

/-- C4 counterexample: constructing the component with the peer databag
unavailable succeeds but leaves the `machine` attribute unset, so subsequent
queries raise AttributeError instead of answering as a machine in
`waiting_for_database`. -/
theorem unavailable_store_query_raises :
    CharmState.init PeerData.unavailable = Except.ok ⟨none⟩ ∧
    CharmState.is_blocked ⟨none⟩ = Except.error QueryError.attributeError ∧
    CharmState.get_state_action ⟨none⟩ = Except.error QueryError.attributeError ∧
    CharmState.get_state_action ⟨none⟩ ≠ Except.ok ("waiting_for_database") :=
  ⟨rfl, rfl, rfl, fun h => Except.noConfusion h⟩

/-- C4 amended: with the peer databag unavailable at construction or teardown
the component performs no restore and no serialize and does not fail the
caller; however it does not fall back to the default initial state - no
machine is created, and state queries raise AttributeError. -/
theorem unavailable_store_short_circuit :
    CharmState.init PeerData.unavailable = Except.ok ⟨none⟩ ∧
    (∀ c : CharmState, CharmState.del c PeerData.unavailable =
      Except.ok PeerData.unavailable) ∧
    CharmState.is_blocked ⟨none⟩ = Except.error QueryError.attributeError ∧
    CharmState.get_state_action ⟨none⟩ = Except.error QueryError.attributeError := by
  refine ⟨rfl, ?_, rfl, rfl⟩
  intro c
  rcases c with ⟨_ | m⟩ <;> rfl

/-- C5 counterexample: the blob encoding the state string "corrupted" cannot
be decoded into one of the three known states, yet restore does not fail with
CorruptState - it silently produces a machine whose state lies outside the
three-value set. -/
theorem restore_unknown_state_silent :
    restore (Blob.encodedMachine ("corrupted")) = Except.ok ⟨"corrupted"⟩ ∧
    "corrupted" ∉ states ∧
    restore (Blob.encodedMachine ("corrupted")) ≠
      Except.error RestoreError.corrupt :=
  ⟨rfl, by decide, fun h => Except.noConfusion h⟩

/-- C5 amended: restore fails (with the decode error, the spec's CorruptState)
exactly for blobs that cannot be decoded at all; every decodable blob is
restored without validation to the machine carrying its encoded state value,
even when that value lies outside the three-value set. -/
theorem restore_decodable_iff (b : Blob) :
    (restore b = Except.error RestoreError.corrupt ↔ b = Blob.undecodable) ∧
    (∀ s : String, restore (Blob.encodedMachine s) = Except.ok ⟨s⟩) := by
  refine ⟨?_, fun s => rfl⟩
  cases b with
  | encodedMachine s =>
      exact ⟨fun h => Except.noConfusion h, fun h => Blob.noConfusion h⟩
  | undecodable => exact ⟨fun _ => rfl, fun _ => rfl⟩

/-- C6: serializing a machine in any of the three reachable states and
restoring from the produced blob yields a machine with the same current
state. -/
theorem serialize_restore_roundtrip (m : StateMachine) (h : m.state ∈ states) :
    ∃ m2 : StateMachine,
      restore (serialize m) = Except.ok m2 ∧ m2.state = m.state :=
  ⟨⟨m.state⟩, rfl, rfl⟩

theorem serialize_restore_roundtrip_witness :
    (⟨"writing"⟩ : StateMachine).state ∈ states ∧
    ∃ m2 : StateMachine,
      restore (serialize ⟨"writing"⟩) = Except.ok m2 ∧
      m2.state = (⟨"writing"⟩ : StateMachine).state :=
  ⟨by decide, serialize_restore_roundtrip ⟨"writing"⟩ (by decide)⟩

/-- C7: every machine observable through a sequence of component operations
(construction, queries, successful or failed transition calls, serialize then
restore) holds exactly one of the three declared state values. -/
theorem only_three_states_observable (m : StateMachine) (h : Reachable m) :
    m.state = "waiting_for_database" ∨ m.state = "ready" ∨ m.state = "writing" := by
  have hm := reachable_mem_states m h
  simpa [states] using hm

theorem only_three_states_observable_witness :
    StateMachine.init.state = "waiting_for_database" ∨
    StateMachine.init.state = "ready" ∨ StateMachine.init.state = "writing" :=
  only_three_states_observable StateMachine.init Reachable.init

/-- C8: for each of the three states, `is_blocked` answers true exactly when
the current state is `waiting_for_database`. -/
theorem is_blocked_iff_waiting (s : String) (h : s ∈ states) :
    is_blocked ⟨s⟩ = true ↔ s = "waiting_for_database" := by
  simp [is_blocked]

theorem is_blocked_iff_waiting_witness :
    "ready" ∈ states ∧
    (is_blocked ⟨"ready"⟩ = true ↔ "ready" = "waiting_for_database") :=
  ⟨by decide, is_blocked_iff_waiting ("ready") (by decide)⟩

/-- C9: a freshly constructed component with peer data present but no prior
persisted blob holds a machine in `waiting_for_database` (the sole initial
state), it is blocked, and the status query reports that state. -/
theorem fresh_machine_initial_state :
    CharmState.init (PeerData.available none) =
      Except.ok ⟨some StateMachine.init⟩ ∧
    StateMachine.init.state = "waiting_for_database" ∧
    is_blocked StateMachine.init = true ∧
    CharmState.get_state_action ⟨some StateMachine.init⟩ =
      Except.ok ("waiting_for_database") ∧
    CharmState.is_blocked ⟨some StateMachine.init⟩ = Except.ok true :=
  ⟨rfl, rfl, by decide, rfl, rfl⟩

/-- C10: for every length and every draw sequence of the entropy source,
`_generate_random_values` returns a string of exactly that many characters,
each taken from the ASCII letters and decimal digits. -/
theorem generate_random_values_spec (length : Nat) (rng : Nat → Nat) :
    (generate_random_values length rng).length = length ∧
    ∀ c ∈ (generate_random_values length rng).toList, c ∈ choices.toList := by
  constructor
  · show ((List.range length).map _).length = length
    rw [List.length_map, List.length_range]
  · intro c hc
    have hc2 : c ∈ (List.range length).map
        (fun i => secrets_choice choices.toList (by decide) (rng i)) := hc
    obtain ⟨i, hi, rfl⟩ := List.mem_map.mp hc2
    exact List.get_mem _ _ _

end MySQLTestApp
